import Mathlib

/-!
# rs-crypto-com-exchange — verification of the spec against the code

Shallow embedding of the connection/event-dispatch engine of the
`crypto-com-exchange` client (`src/client.rs`, `src/subscription.rs`).
Pure functions are translated to Lean functions; the stateful session and
the background dispatcher loop become explicit state passing over a
`World` record; the platform effects (clock reads, JSON serialization
outcomes, transport send outcomes) are environment parameters.

The authentication signature (`CryptoClient::auth`) is embedded down to
the bytes: SHA-256 and HMAC-SHA256 are implemented here over `Nat` bytes
and words (32-bit arithmetic is explicit `% 2^32`), together with the
`hex::encode` lowercase hex encoding and the UTF-8 encoding used by
`str::as_bytes`.
-/

set_option maxRecDepth 100000

namespace CryptoCom

/-! ## 32-bit words and SHA-256 (FIPS 180-4), byte-level -/

/-- Truncate to a 32-bit word. -/
def w32 (n : Nat) : Nat := n % 4294967296

/-- Rotate a 32-bit word right by `n` bits. -/
def rotr32 (x n : Nat) : Nat := w32 ((x >>> n) ||| (x <<< (32 - n)))

/-- SHA-256 choice function. -/
def ch32 (x y z : Nat) : Nat := (x &&& y) ^^^ ((x ^^^ 4294967295) &&& z)

/-- SHA-256 majority function. -/
def maj32 (x y z : Nat) : Nat := (x &&& y) ^^^ (x &&& z) ^^^ (y &&& z)

/-- SHA-256 big sigma 0. -/
def bsig0 (x : Nat) : Nat := rotr32 x 2 ^^^ rotr32 x 13 ^^^ rotr32 x 22

/-- SHA-256 big sigma 1. -/
def bsig1 (x : Nat) : Nat := rotr32 x 6 ^^^ rotr32 x 11 ^^^ rotr32 x 25

/-- SHA-256 small sigma 0. -/
def ssig0 (x : Nat) : Nat := rotr32 x 7 ^^^ rotr32 x 18 ^^^ (x >>> 3)

/-- SHA-256 small sigma 1. -/
def ssig1 (x : Nat) : Nat := rotr32 x 17 ^^^ rotr32 x 19 ^^^ (x >>> 10)

/-- The 64 SHA-256 round constants (decimal). -/
def shaK : List Nat :=
  [1116352408, 1899447441, 3049323471, 3921009573, 961987163, 1508970993,
   2453635748, 2870763221, 3624381080, 310598401, 607225278, 1426881987,
   1925078388, 2162078206, 2614888103, 3248222580, 3835390401, 4022224774,
   264347078, 604807628, 770255983, 1249150122, 1555081692, 1996064986,
   2554220882, 2821834349, 2952996808, 3210313671, 3336571891, 3584528711,
   113926993, 338241895, 666307205, 773529912, 1294757372, 1396182291,
   1695183700, 1986661051, 2177026350, 2456956037, 2730485921, 2820302411,
   3259730800, 3345764771, 3516065817, 3600352804, 4094571909, 275423344,
   430227734, 506948616, 659060556, 883997877, 958139571, 1322822218,
   1537002063, 1747873779, 1955562222, 2024104815, 2227730452, 2361852424,
   2428436474, 2756734187, 3204031479, 3329325298]

/-- The SHA-256 initial hash value (decimal). -/
def shaH0 : List Nat :=
  [1779033703, 3144134277, 1013904242, 2773480762,
   1359893119, 2600822924, 528734635, 1541459225]

/-- Extend a 16-word block by `n` further schedule words. -/
def extendSched : List Nat → Nat → List Nat
  | ws, 0 => ws
  | ws, n + 1 =>
    let t := ws.length
    let w := w32 (ssig1 (ws.getD (t - 2) 0) + ws.getD (t - 7) 0 +
                  ssig0 (ws.getD (t - 15) 0) + ws.getD (t - 16) 0)
    extendSched (ws ++ [w]) n

/-- One SHA-256 compression round on the 8-word working state. -/
def shaRound (st : List Nat) (kw : Nat × Nat) : List Nat :=
  match st with
  | [a, b, c, d, e, f, g, h] =>
    let t1 := w32 (h + bsig1 e + ch32 e f g + kw.1 + kw.2)
    let t2 := w32 (bsig0 a + maj32 a b c)
    [w32 (t1 + t2), a, b, c, w32 (d + t1), e, f, g]
  | other => other

/-- SHA-256 compression of one 16-word block into the chaining value. -/
def shaCompress (h : List Nat) (block : List Nat) : List Nat :=
  let ws := extendSched block 48
  let fin := (shaK.zip ws).foldl shaRound h
  (h.zip fin).map (fun p => w32 (p.1 + p.2))

/-- Big-endian bytes of a value, `n` bytes, most significant first. -/
def beBytes : Nat → Nat → List Nat
  | 0, _ => []
  | n + 1, v => beBytes n (v >>> 8) ++ [v % 256]

/-- Group bytes into big-endian 32-bit words. -/
def bytesToWords : List Nat → List Nat
  | b0 :: b1 :: b2 :: b3 :: rest =>
    ((b0 <<< 24) ||| (b1 <<< 16) ||| (b2 <<< 8) ||| b3) :: bytesToWords rest
  | _ => []

/-- Split a word list into 16-word blocks (`fuel` bounds the recursion). -/
def chunkBlocks : Nat → List Nat → List (List Nat)
  | 0, _ => []
  | _, [] => []
  | fuel + 1, ws => ws.take 16 :: chunkBlocks fuel (ws.drop 16)

/-- SHA-256 padding: append `0x80`, zeros to 56 mod 64, and the 64-bit
big-endian bit length. -/
def padMessage (msg : List Nat) : List Nat :=
  let L := msg.length
  let k := (64 + 55 - (L % 64)) % 64
  msg ++ [128] ++ List.replicate k 0 ++ beBytes 8 (L * 8)

/-- SHA-256 of a byte list, as the 32 digest bytes. -/
def sha256 (msg : List Nat) : List Nat :=
  let padded := padMessage msg
  let ws := bytesToWords padded
  let blocks := chunkBlocks ws.length ws
  ((blocks.foldl shaCompress shaH0).map (beBytes 4)).flatten

/-- HMAC-SHA256 (RFC 2104): keys longer than the 64-byte block are hashed,
shorter keys are zero-padded; any key length (including zero) is valid. -/
def hmacSha256 (key msg : List Nat) : List Nat :=
  let k0 := if 64 < key.length then sha256 key else key
  let kpad := k0 ++ List.replicate (64 - k0.length) 0
  sha256 ((kpad.map (fun b => b ^^^ 92)) ++
          sha256 ((kpad.map (fun b => b ^^^ 54)) ++ msg))

/-- Lowercase hex digit of a nibble, as produced by `hex::encode`. -/
def hexDigit (n : Nat) : Char :=
  if n < 10 then Char.ofNat (48 + n) else Char.ofNat (87 + n)

/-- Lowercase hex string of a byte list (`hex::encode`). -/
def hexEncode (bs : List Nat) : String :=
  String.mk (bs.foldr (fun b acc => hexDigit (b >>> 4) :: hexDigit (b &&& 15) :: acc) [])

/-- UTF-8 encoding of one code point. -/
def utf8Char (c : Nat) : List Nat :=
  if c < 128 then [c]
  else if c < 2048 then [192 ||| (c >>> 6), 128 ||| (c &&& 63)]
  else if c < 65536 then
    [224 ||| (c >>> 12), 128 ||| ((c >>> 6) &&& 63), 128 ||| (c &&& 63)]
  else
    [240 ||| (c >>> 18), 128 ||| ((c >>> 12) &&& 63),
     128 ||| ((c >>> 6) &&& 63), 128 ||| (c &&& 63)]

/-- The bytes of a string in UTF-8 (`str::as_bytes`). -/
def utf8Bytes (s : String) : List Nat :=
  (s.data.map (fun c => utf8Char c.toNat)).flatten

example :
    hexEncode (hmacSha256 (utf8Bytes "secret")
      (utf8Bytes "public/auth11token1587846358253")) =
    "7aaec5022ec2774be06c9631c24afeb514c65000682d303dcd1195634b670ccd" := by
  decide

/-! ## Data model (`src/subscription.rs`, `src/client.rs`) -/

/-- A serde_json error, carried opaquely as its display string. -/
abbrev SerdeErr := String

/-- A tungstenite transport error, carried opaquely as its display string. -/
abbrev TErr := String

/-- An opaque `serde_json::Value` (the caller-supplied subscribe params),
carried as its JSON text — the client never inspects it. -/
abbrev JsonValue := String

/-- A websocket close frame (tungstenite `CloseFrame`): numeric close code
and reason text. -/
structure CloseFrame where
  code : Nat
  reason : String
deriving DecidableEq

/-- Modelled from the spec: the `message` module (absent from `src/`)
defines `SubscribeResult`, the value surfaced to the callback — either an
opaque channel payload the dispatcher forwards untouched, or a boolean
success flag for unsubscription/authentication outcomes (spec §3). -/
inductive SubscribeResult
  | Payload (raw : Nat)
  | UnsubscriptionResult (success : Bool)
  | AuthResult (success : Bool)
deriving DecidableEq

/-- Modelled from the spec: the `message` module (absent from `src/`)
defines the inbound `Message` tagged union {HeartbeatRequest,
SubscriptionResponse, UnsubscriptionResponse, AuthResponse} (spec §3, §6);
SubscriptionResponse field types follow the destructuring in `client.rs`
(`id: i64`, `code: u64`, per `CryptoError::SubscriptionError`). -/
inductive Message
  | HeartbeatRequest (id : Nat)
  | SubscriptionResponse (result : Option SubscribeResult) (id : Int)
      (code : Nat) (channel : Option String) (message : Option String)
  | UnsubscriptionResponse (id : Nat) (code : Nat)
  | AuthResponse (id : Nat) (code : Nat)
deriving DecidableEq

/-- Parameters of an unsubscription (`subscription.rs:14-17`). -/
structure UnsubscribeParams where
  channels : List String
deriving DecidableEq

/-- Outbound `Request` (`subscription.rs:22-65`): heartbeat ack,
subscribe, unsubscribe, auth. -/
inductive Request
  | HeartbeatResponse (id : Nat)
  | Subscribe (id : Nat) (params : JsonValue) (nonce : Nat)
  | Unsubscribe (id : Nat) (params : UnsubscribeParams) (nonce : Nat)
  | Auth (id : Nat) (api_key : String) (sig : String) (nonce : Nat)
deriving DecidableEq

/-- The `nonce` field of an outbound request, when the variant carries one. -/
def Request.nonceField : Request → Option Nat
  | .HeartbeatResponse _ => none
  | .Subscribe _ _ n => some n
  | .Unsubscribe _ _ n => some n
  | .Auth _ _ _ n => some n

/-- `CryptoError` (`client.rs:22-55`), the closed error taxonomy. -/
inductive CryptoError
  | JoinError
  | TungsteniteError (e : TErr)
  | TungsteniteErrorString (s : String)
  | SubscriptionError (id : Int) (code : Nat) (message : Option String)
      (channel : Option String)
  | SerdeError (e : SerdeErr)
  | CloseError (frame : Option CloseFrame)
  | UnexpectedMessageError (tag : Nat)
  | NotConnectedError
  | ShaInvalidLength
deriving DecidableEq

instance {ε α : Type} [DecidableEq ε] [DecidableEq α] : DecidableEq (Except ε α) :=
  fun a b =>
  match a, b with
  | .ok x, .ok y =>
    if h : x = y then .isTrue (h ▸ rfl) else .isFalse (fun hc => h (Except.ok.inj hc))
  | .error e, .error f =>
    if h : e = f then .isTrue (h ▸ rfl) else .isFalse (fun hc => h (Except.error.inj hc))
  | .ok _, .error _ => .isFalse (fun hc => Except.noConfusion hc)
  | .error _, .ok _ => .isFalse (fun hc => Except.noConfusion hc)

/-- `nonce()` (`client.rs:74-79`): epoch milliseconds from
`SystemTime::now().duration_since(UNIX_EPOCH)`, or `0` when the clock read
fails (system time before the epoch). The clock reading is an environment
parameter: `some millis` on success, `none` on failure. -/
def nonce : Option Nat → Nat
  | some n => n
  | none => 0

/-! ## The dispatcher loop (`client.rs:167-311`) -/

/-- A tungstenite frame as classified by the dispatcher match
(`client.rs:177-296`). A Text frame carries the result of
`serde_json::from_str::<message::Message>` on its payload; `Other` stands
for the remaining frame kinds (Binary, Frame) hitting the catch-all arm. -/
inductive WsFrame
  | Text (parsed : Except SerdeErr Message)
  | Ping (payload : List Nat)
  | Pong (payload : List Nat)
  | Close (frame : Option CloseFrame)
  | Other (tag : Nat)
deriving DecidableEq

/-- One item yielded by `read.next()`: a frame, or a transport read error. -/
inductive ReadItem
  | frame (f : WsFrame)
  | readErr (e : TErr)
deriving DecidableEq

/-- Environment of one loop iteration: the serialization outcome for the
heartbeat reply and the send outcome on the inner writer (`some e` =
failure with error `e`). -/
structure LoopEnv where
  ser : Option SerdeErr
  send : Option TErr
deriving DecidableEq

/-- The all-successful loop environment. -/
def LoopEnv.good : LoopEnv := { ser := none, send := none }

/-- Observable action of one loop iteration. `invoke` is a callback call
whose returned future is awaited (`e(...).await` in the source);
`dropFuture` is a callback call whose returned future is dropped without
being awaited (`e(...);` with no `.await` — an async callback body never
runs); `sendReq` and `sendPong` are outbound writes on the shared send
handle. -/
inductive Action
  | invoke (r : Except CryptoError SubscribeResult)
  | dropFuture (r : Except CryptoError SubscribeResult)
  | sendReq (m : Request)
  | sendPong (payload : List Nat)
deriving DecidableEq

/-- Loop control after one iteration: continue; continue with the recorded
`join_result` set to an error (read-error path); or return immediately
(Close frame). -/
inductive StepCtl
  | next
  | nextErr (e : CryptoError)
  | halt (e : CryptoError)
deriving DecidableEq

/-- One iteration of the dispatcher loop: the match on the next read item
(`client.rs:172-308`), translated arm by arm. The three callback calls the
source does not `.await` (failed heartbeat send, failed heartbeat
serialization, SubscriptionError) produce `dropFuture`; every other
callback call produces `invoke`. -/
def stepItem (it : ReadItem) (env : LoopEnv) : List Action × StepCtl :=
  match it with
  | .frame f =>
    match f with
    | .Text parsed =>
      match parsed with
      | .ok msg =>
        match msg with
        | .HeartbeatRequest id =>
          match env.ser with
          | some error => ([.dropFuture (.error (.SerdeError error))], .next)
          | none =>
            match env.send with
            | some error => ([.dropFuture (.error (.TungsteniteError error))], .next)
            | none => ([.sendReq (.HeartbeatResponse id)], .next)
        | .SubscriptionResponse result id code channel message =>
          match result with
          | some r => ([.invoke (.ok r)], .next)
          | none =>
            if code ≠ 0 then
              ([.dropFuture (.error (.SubscriptionError id code message channel))], .next)
            else ([], .next)
        | .UnsubscriptionResponse _ code =>
          ([.invoke (.ok (.UnsubscriptionResult (code == 0)))], .next)
        | .AuthResponse _ code =>
          ([.invoke (.ok (.AuthResult (code == 0)))], .next)
      | .error err => ([.invoke (.error (.SerdeError err))], .next)
    | .Ping payload =>
      match env.send with
      | some error => ([.invoke (.error (.TungsteniteError error))], .next)
      | none => ([.sendPong payload], .next)
    | .Pong _ => ([], .next)
    | .Close frame => ([.invoke (.error (.CloseError frame))], .halt (.CloseError frame))
    | .Other tag => ([.invoke (.error (.UnexpectedMessageError tag))], .next)
  | .readErr error =>
    ([.invoke (.error (.TungsteniteErrorString error))], .nextErr (.TungsteniteError error))

/-- One stream item together with its iteration environment. -/
abbrev StreamItem := ReadItem × LoopEnv

/-- The dispatcher loop (`client.rs:167-311`): folds over the stream,
accumulating actions. A Close frame returns immediately with its error,
skipping the rest of the stream; a read error records the error as
`join_result`, which becomes the task's result once the stream is
exhausted. -/
def runLoop : List StreamItem → Except CryptoError Unit →
    List Action × Except CryptoError Unit
  | [], jr => ([], jr)
  | (it, env) :: rest, jr =>
    match stepItem it env with
    | (acts, .halt e) => (acts, .error e)
    | (acts, .next) =>
      let r := runLoop rest jr
      (acts ++ r.1, r.2)
    | (acts, .nextErr e) =>
      let r := runLoop rest (.error e)
      (acts ++ r.1, r.2)

/-! ## The session (`CryptoClient`) and its operations -/

/-- Status of a spawned dispatcher task. `running eventual` is a task
still running whose loop will finish with result `eventual`; `finished r`
is a task that has finished with result `r`; `aborted` is a task that was
cancelled by `disconnect` (and joined, so its handle reports finished). -/
inductive TaskStatus
  | running (eventual : Except CryptoError Unit)
  | finished (r : Except CryptoError Unit)
  | aborted
deriving DecidableEq

/-- The session fields of `CryptoClient` (`client.rs:62-72`): the stored
writer and reader-task handles (as indices into the world's tables), the
u64 `message_id` counter, and the two endpoint URLs. -/
structure CryptoClient where
  writer : Option Nat
  reader_join : Option Nat
  message_id : Nat
  market_url : String
  user_url : String
deriving DecidableEq

/-- `CryptoClient::new` (`client.rs:86-99`): no handles, `message_id = 1`,
the two well-known endpoints. -/
def CryptoClient.new : CryptoClient :=
  { writer := none, reader_join := none, message_id := 1,
    market_url := "wss://stream.crypto.com/v2/market",
    user_url := "wss://stream.crypto.com/v2/user" }

/-- The session together with the platform objects it points into: the
closed-flag of every writer sink ever created, the status of every
dispatcher task ever spawned, and the requests successfully sent. -/
structure World where
  client : CryptoClient
  writers : List Bool
  tasks : List TaskStatus
  sent : List Request
deriving DecidableEq

/-- A fresh world around `CryptoClient::new`. -/
def World.new : World :=
  { client := CryptoClient.new, writers := [], tasks := [], sent := [] }

/-- The u64 modulus of the `message_id` counter. -/
def U64 : Nat := 18446744073709551616

/-- Environment of one caller-side operation: the clock reading, the
serde_json serialization outcome, and the transport send outcome on an
open sink (`some e` = failure with error `e`). -/
structure Env where
  clock : Option Nat
  ser : Option SerdeErr
  send : Option TErr
deriving DecidableEq

/-- The tungstenite error produced by sending on a sink already closed. -/
def sendAfterClosing : TErr := "SendAfterClosing"

/-- Outcome of `writer.lock().await.send(...)`: a closed sink fails with
`SendAfterClosing` (tungstenite), an open sink fails iff the environment
says the transport write fails. -/
def sendViaWriter (writers : List Bool) (wi : Nat) (env : Env) : Except TErr Unit :=
  if writers.getD wi true then .error sendAfterClosing
  else
    match env.send with
    | some e => .error e
    | none => .ok ()

/-- The Subscribe request built by `CryptoClient::subscribe`
(`client.rs:322-326`). -/
def buildSubscribe (c : CryptoClient) (param : JsonValue) (clock : Option Nat) : Request :=
  .Subscribe c.message_id param (nonce clock)

/-- The Unsubscribe request built by `CryptoClient::unsubscribe`
(`client.rs:342-346`). -/
def buildUnsubscribe (c : CryptoClient) (channels : List String)
    (clock : Option Nat) : Request :=
  .Unsubscribe c.message_id ⟨channels⟩ (nonce clock)

/-- `HmacSha256::new_from_slice` (hmac crate): HMAC accepts keys of any
length (keys longer than the block are hashed first, shorter keys are
zero-padded — RFC 2104), so it never returns `InvalidLength`; the
`Result` in its signature exists only for the generic `KeyInit` trait. -/
def hmacNewFromSlice (key : List Nat) : Except Unit (List Nat) := .ok key

/-- The Auth request built by `CryptoClient::auth` (`client.rs:361-379`):
the signature is HMAC-SHA256, keyed by the secret, of
`["public/auth", id.to_string(), api_key, n.to_string()].concat()`,
hex-encoded with `hex::encode`. -/
def buildAuth (c : CryptoClient) (api_key api_secret : String)
    (clock : Option Nat) : Request :=
  let n := nonce clock
  let message_to_sig :=
    String.join ["public/auth", toString c.message_id, api_key, toString n]
  let f := hmacSha256 (utf8Bytes api_secret) (utf8Bytes message_to_sig)
  .Auth c.message_id api_key (hexEncode f) n

/-- `CryptoClient::subscribe` (`client.rs:319-337`), state-passing form:
without a stored writer it fails `NotConnectedError` touching nothing;
serialization failure and send failure return their errors with the
state unchanged; only after a successful send is `message_id`
incremented (wrapping u64) and the request recorded as sent. -/
def subscribeStep (w : World) (param : JsonValue) (env : Env) :
    World × Except CryptoError Unit :=
  match w.client.writer with
  | none => (w, .error .NotConnectedError)
  | some wi =>
    let message := buildSubscribe w.client param env.clock
    match env.ser with
    | some e => (w, .error (.SerdeError e))
    | none =>
      match sendViaWriter w.writers wi env with
      | .error e => (w, .error (.TungsteniteError e))
      | .ok _ =>
        ({ w with
            client := { w.client with message_id := (w.client.message_id + 1) % U64 },
            sent := w.sent ++ [message] }, .ok ())

/-- `CryptoClient::unsubscribe` (`client.rs:339-357`), state-passing form;
same shape as `subscribeStep`. -/
def unsubscribeStep (w : World) (channels : List String) (env : Env) :
    World × Except CryptoError Unit :=
  match w.client.writer with
  | none => (w, .error .NotConnectedError)
  | some wi =>
    let message := buildUnsubscribe w.client channels env.clock
    match env.ser with
    | some e => (w, .error (.SerdeError e))
    | none =>
      match sendViaWriter w.writers wi env with
      | .error e => (w, .error (.TungsteniteError e))
      | .ok _ =>
        ({ w with
            client := { w.client with message_id := (w.client.message_id + 1) % U64 },
            sent := w.sent ++ [message] }, .ok ())

/-- `CryptoClient::auth` (`client.rs:359-389`), state-passing form: as
`subscribeStep`, with the HMAC key-initialization `?` kept before the
message construction. -/
def authStep (w : World) (api_key api_secret : String) (env : Env) :
    World × Except CryptoError Unit :=
  match w.client.writer with
  | none => (w, .error .NotConnectedError)
  | some wi =>
    match hmacNewFromSlice (utf8Bytes api_secret) with
    | .error _ => (w, .error .ShaInvalidLength)
    | .ok _ =>
      let message := buildAuth w.client api_key api_secret env.clock
      match env.ser with
      | some e => (w, .error (.SerdeError e))
      | none =>
        match sendViaWriter w.writers wi env with
        | .error e => (w, .error (.TungsteniteError e))
        | .ok _ =>
          ({ w with
              client := { w.client with message_id := (w.client.message_id + 1) % U64 },
              sent := w.sent ++ [message] }, .ok ())

/-- `CryptoClient::connect` (`client.rs:154-317`): on handshake failure the
transport error surfaces immediately and nothing changes; on success a
fresh open writer and a fresh running dispatcher task (whose eventual
result is the loop outcome over this connection's stream) are created and
the stored handles are overwritten — prior tasks and writers are neither
aborted nor joined nor closed. -/
def connectStep (w : World) (handshake : Option TErr) (stream : List StreamItem) :
    World × Except CryptoError Unit :=
  match handshake with
  | some e => (w, .error (.TungsteniteError e))
  | none =>
    ({ w with
        writers := w.writers ++ [false],
        tasks := w.tasks ++ [.running (runLoop stream (.ok ())).2],
        client := { w.client with
          writer := some w.writers.length,
          reader_join := some w.tasks.length } }, .ok ())

/-- `reader.abort()` on a task status: a running task becomes aborted; a
task already finished stays finished. -/
def abortTask : TaskStatus → TaskStatus
  | .running _ => .aborted
  | s => s

/-- Abort the task at index `i`. -/
def setAborted (ts : List TaskStatus) (i : Nat) : List TaskStatus :=
  ts.set i (abortTask (ts.getD i .aborted))

/-- The reader-abort block of `disconnect` (`client.rs:131-136`): abort and
join the stored reader task, if any. -/
def abortReader (w : World) : World :=
  match w.client.reader_join with
  | some ti => { w with tasks := setAborted w.tasks ti }
  | none => w

/-- `CryptoClient::disconnect` (`client.rs:123-139`): if a writer handle is
stored, close it — a close failure returns the transport error at the `?`
immediately, touching nothing else (the reader is not aborted); on success
the sink is closed, then the stored reader task is aborted and joined.
Neither the writer handle nor the reader handle is ever cleared from the
session. -/
def disconnectStep (w : World) (closeOutcome : Option TErr) :
    World × Except CryptoError Unit :=
  match w.client.writer with
  | some wi =>
    match closeOutcome with
    | some e => (w, .error (.TungsteniteError e))
    | none => (abortReader { w with writers := w.writers.set wi true }, .ok ())
  | none => (abortReader w, .ok ())

/-- `CryptoClient::wait` (`client.rs:111-121`): no stored reader handle ⇒
`Ok(())`; a handle whose task `is_finished` ⇒ `Ok(())` — the task's stored
result is discarded by this fast path; a still-running task is joined and
its result returned through `join.await?` (the task is finished
afterwards); an aborted task was already joined by `disconnect`, so its
handle reports finished ⇒ `Ok(())`. -/
def waitStep (w : World) : World × Except CryptoError Unit :=
  match w.client.reader_join with
  | none => (w, .ok ())
  | some ti =>
    match w.tasks.getD ti .aborted with
    | .running ev => ({ w with tasks := w.tasks.set ti (.finished ev) }, ev)
    | .finished _ => (w, .ok ())
    | .aborted => (w, .ok ())

/-! ## Helper lemmas -/

lemma abortReader_client (w : World) : (abortReader w).client = w.client := by
  unfold abortReader; cases w.client.reader_join <;> rfl

lemma abortReader_writers (w : World) : (abortReader w).writers = w.writers := by
  unfold abortReader; cases w.client.reader_join <;> rfl

lemma getD_set_true (l : List Bool) (i : Nat) : (l.set i true).getD i true = true := by
  induction l generalizing i with
  | nil => rfl
  | cons a t ih =>
    cases i with
    | zero => rfl
    | succ n => simpa using ih n

lemma getD_out_of_range {α : Type} (l : List α) (i : Nat) (d : α)
    (h : l.length ≤ i) : l.getD i d = d := by
  induction l generalizing i with
  | nil => simp [List.getD]
  | cons a t ih =>
    cases i with
    | zero => simp at h
    | succ n =>
      simp only [List.getD_cons_succ]
      exact ih n (by simp at h; omega)

lemma getD_append_left {α : Type} (l l2 : List α) (i : Nat) (d : α)
    (h : i < l.length) : (l ++ l2).getD i d = l.getD i d := by
  induction l generalizing i with
  | nil => simp at h
  | cons a t ih =>
    cases i with
    | zero => rfl
    | succ n =>
      simp only [List.cons_append, List.getD_cons_succ]
      exact ih n (by simp at h; omega)

/-! ## Claims -/

/-- C1: the session's outbound message id starts at 1 and, for each of
subscribe, unsubscribe and auth, the call succeeds — i.e. the send on the
transport succeeds — if and only if the id increments by exactly one;
when serialization or the send fails, or the call fails not-connected,
the id is unchanged, so successive successful sends carry consecutive
ids with no gap and no reuse. -/
theorem C1_message_id_consecutive :
    CryptoClient.new.message_id = 1 ∧
    (∀ (w : World) (param : JsonValue) (env : Env),
      w.client.message_id + 1 < U64 →
      (((subscribeStep w param env).2 = .ok ()) ↔
        (subscribeStep w param env).1.client.message_id = w.client.message_id + 1) ∧
      ((subscribeStep w param env).2 ≠ .ok () →
        (subscribeStep w param env).1.client.message_id = w.client.message_id)) ∧
    (∀ (w : World) (channels : List String) (env : Env),
      w.client.message_id + 1 < U64 →
      (((unsubscribeStep w channels env).2 = .ok ()) ↔
        (unsubscribeStep w channels env).1.client.message_id = w.client.message_id + 1) ∧
      ((unsubscribeStep w channels env).2 ≠ .ok () →
        (unsubscribeStep w channels env).1.client.message_id = w.client.message_id)) ∧
    (∀ (w : World) (api_key api_secret : String) (env : Env),
      w.client.message_id + 1 < U64 →
      (((authStep w api_key api_secret env).2 = .ok ()) ↔
        (authStep w api_key api_secret env).1.client.message_id = w.client.message_id + 1) ∧
      ((authStep w api_key api_secret env).2 ≠ .ok () →
        (authStep w api_key api_secret env).1.client.message_id = w.client.message_id)) := by
  refine ⟨rfl, ?_, ?_, ?_⟩
  · intro w param env h
    have hne : w.client.message_id ≠ w.client.message_id + 1 := by omega
    cases hw : w.client.writer with
    | none => simp [subscribeStep, hw, hne]
    | some wi =>
      cases hser : env.ser with
      | some e => simp [subscribeStep, hw, hser, hne]
      | none =>
        cases hsend : sendViaWriter w.writers wi env with
        | error e => simp [subscribeStep, hw, hser, hsend, hne]
        | ok u => simp [subscribeStep, hw, hser, hsend, Nat.mod_eq_of_lt h]
  · intro w channels env h
    have hne : w.client.message_id ≠ w.client.message_id + 1 := by omega
    cases hw : w.client.writer with
    | none => simp [unsubscribeStep, hw, hne]
    | some wi =>
      cases hser : env.ser with
      | some e => simp [unsubscribeStep, hw, hser, hne]
      | none =>
        cases hsend : sendViaWriter w.writers wi env with
        | error e => simp [unsubscribeStep, hw, hser, hsend, hne]
        | ok u => simp [unsubscribeStep, hw, hser, hsend, Nat.mod_eq_of_lt h]
  · intro w api_key api_secret env h
    have hne : w.client.message_id ≠ w.client.message_id + 1 := by omega
    cases hw : w.client.writer with
    | none => simp [authStep, hw, hne]
    | some wi =>
      cases hser : env.ser with
      | some e => simp [authStep, hw, hser, hmacNewFromSlice, hne]
      | none =>
        cases hsend : sendViaWriter w.writers wi env with
        | error e => simp [authStep, hw, hser, hmacNewFromSlice, hsend, hne]
        | ok u => simp [authStep, hw, hser, hmacNewFromSlice, hsend, Nat.mod_eq_of_lt h]

/-- C1 witness: on a fresh connection (id 1), a successful subscribe
returns Ok and moves the id to 2. -/
theorem C1_message_id_consecutive_witness :
    (subscribeStep (connectStep World.new none []).1 "p"
        { clock := some 5, ser := none, send := none }).2 = .ok () ∧
    (subscribeStep (connectStep World.new none []).1 "p"
        { clock := some 5, ser := none, send := none }).1.client.message_id =
      (connectStep World.new none []).1.client.message_id + 1 := by
  have h := (C1_message_id_consecutive.2.1 (connectStep World.new none []).1 "p"
    { clock := some 5, ser := none, send := none } (by decide)).1
  exact ⟨by decide, h.mp (by decide)⟩

/-- C7: the nonce attached to every Subscribe, Unsubscribe and Auth
request is the (non-negative) epoch-milliseconds clock reading, and
exactly 0 when the clock read fails. -/
theorem C7_nonce_epoch_millis_or_zero :
    (∀ n, nonce (some n) = n) ∧ nonce none = 0 ∧
    (∀ c param clock,
      (buildSubscribe c param clock).nonceField = some (nonce clock)) ∧
    (∀ c channels clock,
      (buildUnsubscribe c channels clock).nonceField = some (nonce clock)) ∧
    (∀ c api_key api_secret clock,
      (buildAuth c api_key api_secret clock).nonceField = some (nonce clock)) :=
  ⟨fun _ => rfl, rfl, fun _ _ _ => rfl, fun _ _ _ => rfl, fun _ _ _ _ => rfl⟩

/-- C5: an inbound text frame decoding as HeartbeatRequest{id}, when the
serialization and the send succeed, makes the dispatcher send exactly one
outbound HeartbeatResponse carrying the same id and perform no callback
invocation, and the loop continues. -/
theorem C5_heartbeat_ack (id : Nat) (env : LoopEnv)
    (hser : env.ser = none) (hsend : env.send = none) :
    stepItem (.frame (.Text (.ok (.HeartbeatRequest id)))) env =
      ([.sendReq (.HeartbeatResponse id)], .next) := by
  simp [stepItem, hser, hsend]

/-- C5 witness: heartbeat id 19 in the all-successful environment. -/
theorem C5_heartbeat_ack_witness :
    stepItem (.frame (.Text (.ok (.HeartbeatRequest 19)))) LoopEnv.good =
      ([.sendReq (.HeartbeatResponse 19)], .next) :=
  C5_heartbeat_ack 19 LoopEnv.good rfl rfl

/-- C2 (code bug, evaluated at the failing input): an inbound text frame
decoding as SubscriptionResponse with no result, code 3 and message
"Invalid" makes the dispatcher call the callback with the matching
SubscriptionError but drop the returned future without awaiting it
(`e(...)` with no `.await`, client.rs:226-234, unlike every sibling arm),
so no awaited callback invocation occurs; the loop continues and, with no
further frames, ends Ok. -/
theorem C2_subscription_error_future_dropped :
    runLoop [(.frame (.Text (.ok
        (.SubscriptionResponse none 1 3 none (some "Invalid")))), LoopEnv.good)]
      (.ok ()) =
    ([.dropFuture (.error (.SubscriptionError 1 3 (some "Invalid") none))], .ok ()) := by
  rfl

/-- C3 (counterexample): in a session whose dispatcher task has already
finished with the CloseError, `wait()` returns `Ok(())` — the
`is_finished` fast path discards the stored result — so it is false that
every subsequent `wait()` call returns that same CloseError. -/
theorem C3_wait_after_close_counterexample :
    (waitStep { client := { CryptoClient.new with reader_join := some 0 },
                writers := [], tasks := [.finished (.error (.CloseError none))],
                sent := [] }).2 = .ok () ∧
    (Except.ok () : Except CryptoError Unit) ≠ .error (.CloseError none) :=
  ⟨rfl, by decide⟩

/-- C3 (amended): a Close frame makes the dispatcher invoke the callback
exactly once with a CloseError carrying the optional close frame and
terminate the loop immediately with that CloseError as the task's result,
skipping the rest of the stream; a `wait()` that joins the task while it
is still running returns that CloseError, but a `wait()` made after the
task has finished returns `Ok(())` (the `is_finished` fast path discards
the result). -/
theorem C3_close_invokes_once_and_terminates :
    (∀ (fr : Option CloseFrame) (env : LoopEnv) (rest : List StreamItem)
        (jr : Except CryptoError Unit),
      runLoop ((.frame (.Close fr), env) :: rest) jr =
        ([.invoke (.error (.CloseError fr))], .error (.CloseError fr))) ∧
    (∀ (w : World) (ti : Nat) (ev : Except CryptoError Unit),
      w.client.reader_join = some ti →
      w.tasks.getD ti .aborted = .running ev →
      (waitStep w).2 = ev) ∧
    (∀ (w : World) (ti : Nat) (r : Except CryptoError Unit),
      w.client.reader_join = some ti →
      w.tasks.getD ti .aborted = .finished r →
      (waitStep w).2 = .ok ()) := by
  refine ⟨fun fr env rest jr => rfl, ?_, ?_⟩
  · intro w ti ev hj ht; simp only [waitStep, hj, ht]
  · intro w ti r hj ht; simp only [waitStep, hj, ht]

/-- C3 witness: joining the still-running task returns the CloseError the
loop terminated with. -/
theorem C3_close_invokes_once_and_terminates_witness :
    (waitStep { client := { CryptoClient.new with reader_join := some 0 },
                writers := [],
                tasks := [.running (.error (.CloseError (some ⟨1000, "bye"⟩)))],
                sent := [] }).2 = .error (.CloseError (some ⟨1000, "bye"⟩)) :=
  C3_close_invokes_once_and_terminates.2.1 _ 0 _ rfl rfl

/-- C4 (counterexample): connect, then a successful disconnect; the next
subscribe does not fail with NotConnectedError — the writer handle is
still stored, so the call takes the connected path and fails with the
transport error from sending on the closed sink. -/
theorem C4_after_disconnect_counterexample :
    (subscribeStep (disconnectStep (connectStep World.new none []).1 none).1
        "p" { clock := some 0, ser := none, send := none }).2 =
      .error (.TungsteniteError sendAfterClosing) ∧
    (subscribeStep (disconnectStep (connectStep World.new none []).1 none).1
        "p" { clock := some 0, ser := none, send := none }).2 ≠
      .error .NotConnectedError :=
  ⟨by decide, by decide⟩

/-- C4 (amended): a successful `disconnect()` leaves the writer handle
stored, so subsequent subscribe, unsubscribe and auth calls do not fail
with NotConnectedError — they take the connected path and fail (never
succeed) since the sink is closed; NotConnectedError is produced exactly
when no writer handle is stored, i.e. before the first `connect`. -/
theorem C4_after_disconnect_still_connected_path :
    ∀ (w : World) (wi : Nat), w.client.writer = some wi →
      (disconnectStep w none).2 = .ok () ∧
      (disconnectStep w none).1.client.writer = some wi ∧
      (∀ (param : JsonValue) (env : Env),
        (subscribeStep (disconnectStep w none).1 param env).2 ≠
          .error .NotConnectedError ∧
        (subscribeStep (disconnectStep w none).1 param env).2 ≠ .ok ()) ∧
      (∀ (channels : List String) (env : Env),
        (unsubscribeStep (disconnectStep w none).1 channels env).2 ≠
          .error .NotConnectedError ∧
        (unsubscribeStep (disconnectStep w none).1 channels env).2 ≠ .ok ()) ∧
      (∀ (api_key api_secret : String) (env : Env),
        (authStep (disconnectStep w none).1 api_key api_secret env).2 ≠
          .error .NotConnectedError ∧
        (authStep (disconnectStep w none).1 api_key api_secret env).2 ≠ .ok ()) := by
  intro w wi hw
  have hd : disconnectStep w none =
      (abortReader { w with writers := w.writers.set wi true }, .ok ()) := by
    simp [disconnectStep, hw]
  have hc : (disconnectStep w none).1.client = w.client := by
    rw [hd]; exact abortReader_client _
  have hwr : (disconnectStep w none).1.client.writer = some wi := by rw [hc]; exact hw
  have hws : (disconnectStep w none).1.writers = w.writers.set wi true := by
    rw [hd]; exact abortReader_writers _
  have hsv : ∀ env : Env,
      sendViaWriter (disconnectStep w none).1.writers wi env = .error sendAfterClosing := by
    intro env; unfold sendViaWriter; rw [hws, getD_set_true]; simp
  refine ⟨by rw [hd], hwr, ?_, ?_, ?_⟩
  · intro param env
    cases hser : env.ser with
    | some e => constructor <;> simp [subscribeStep, hwr, hser]
    | none => constructor <;> simp [subscribeStep, hwr, hser, hsv env]
  · intro channels env
    cases hser : env.ser with
    | some e => constructor <;> simp [unsubscribeStep, hwr, hser]
    | none => constructor <;> simp [unsubscribeStep, hwr, hser, hsv env]
  · intro api_key api_secret env
    cases hser : env.ser with
    | some e => constructor <;> simp [authStep, hwr, hmacNewFromSlice, hser]
    | none => constructor <;> simp [authStep, hwr, hmacNewFromSlice, hser, hsv env]

/-- C4 witness: after connect and a successful disconnect, subscribe does
not report NotConnectedError. -/
theorem C4_after_disconnect_still_connected_path_witness :
    (disconnectStep (connectStep World.new none []).1 none).2 = .ok () ∧
    (subscribeStep (disconnectStep (connectStep World.new none []).1 none).1 "q"
        { clock := none, ser := none, send := none }).2 ≠
      .error .NotConnectedError := by
  have h := C4_after_disconnect_still_connected_path (connectStep World.new none []).1 0 rfl
  exact ⟨h.1, (h.2.2.1 "q" { clock := none, ser := none, send := none }).1⟩

/-- C8 (counterexample): auth with the zero-length secret on a live
session does not fail with ShaInvalidLength: HMAC-SHA256 zero-pads the
empty key, the call succeeds and sends the Auth request signed under the
empty key. -/
theorem C8_empty_secret_counterexample :
    (authStep (connectStep World.new none []).1 "key" ""
        { clock := some 0, ser := none, send := none }).2 = .ok () ∧
    (authStep (connectStep World.new none []).1 "key" ""
        { clock := some 0, ser := none, send := none }).1.sent =
      [.Auth 1 "key"
        "3b5f94e65ea2cebac8a2d26ea9e90234f0f9d25984de673216c5e016aef82399" 0] :=
  ⟨by decide, by decide⟩

/-- C8 (amended): no auth call ever fails with ShaInvalidLength —
`Hmac::new_from_slice` accepts keys of any length (a zero-length key is
zero-padded per RFC 2104), so the dedicated error variant is unreachable
from auth. -/
theorem C8_auth_never_sha_invalid_length :
    ∀ (w : World) (api_key api_secret : String) (env : Env),
      (authStep w api_key api_secret env).2 ≠ .error .ShaInvalidLength := by
  intro w api_key api_secret env
  cases hw : w.client.writer with
  | none => simp [authStep, hw]
  | some wi =>
    cases hser : env.ser with
    | some e => simp [authStep, hw, hmacNewFromSlice, hser]
    | none =>
      cases hsend : sendViaWriter w.writers wi env with
      | error e => simp [authStep, hw, hmacNewFromSlice, hser, hsend]
      | ok u => simp [authStep, hw, hmacNewFromSlice, hser, hsend]

/-- C8 witness: the never-ShaInvalidLength law at the fresh session and
the empty secret. -/
theorem C8_auth_never_sha_invalid_length_witness :
    (authStep World.new "key" "" { clock := some 0, ser := none, send := none }).2 ≠
      .error .ShaInvalidLength :=
  C8_auth_never_sha_invalid_length World.new "key" ""
    { clock := some 0, ser := none, send := none }

/-- C9: `connect` on a session whose previous dispatcher task is still
running overwrites the stored task and writer handles with the fresh ones
without aborting or joining the prior task — it is still running
afterwards, on its own receive capability — and dispatcher processing
still produces awaited callback invocations (e.g. on an AuthResponse). -/
theorem C9_connect_overwrites_handles_without_abort :
    ∀ (w : World) (ti : Nat) (ev : Except CryptoError Unit) (stream : List StreamItem),
      w.client.reader_join = some ti →
      w.tasks.getD ti .aborted = .running ev →
      (connectStep w none stream).1.tasks.getD ti .aborted = .running ev ∧
      (connectStep w none stream).1.client.reader_join = some w.tasks.length ∧
      (connectStep w none stream).1.client.reader_join ≠ some ti ∧
      (connectStep w none stream).1.client.writer = some w.writers.length ∧
      (stepItem (.frame (.Text (.ok (.AuthResponse 1 0)))) LoopEnv.good).1 =
        [.invoke (.ok (.AuthResult true))] := by
  intro w ti ev stream hj ht
  have hlt : ti < w.tasks.length := by
    by_contra hge
    rw [getD_out_of_range _ _ _ (by omega)] at ht
    cases ht
  have htasks : (connectStep w none stream).1.tasks =
      w.tasks ++ [.running (runLoop stream (.ok ())).2] := rfl
  refine ⟨?_, rfl, ?_, rfl, rfl⟩
  · rw [htasks, getD_append_left _ _ _ _ hlt]; exact ht
  · intro hcontra
    have : w.tasks.length = ti := Option.some.inj hcontra
    omega

/-- C9 witness: a second connect leaves the first task running and moves
the stored handle to the new task. -/
theorem C9_connect_overwrites_handles_without_abort_witness :
    (connectStep (connectStep World.new none []).1 none []).1.tasks.getD 0 .aborted =
      .running (.ok ()) ∧
    (connectStep (connectStep World.new none []).1 none []).1.client.reader_join ≠
      some 0 := by
  have h := C9_connect_overwrites_handles_without_abort
    (connectStep World.new none []).1 0 (.ok ()) [] rfl rfl
  exact ⟨h.1, h.2.2.1⟩

/-- C10: if closing the send handle inside `disconnect` fails with a
transport error, `disconnect` returns that error immediately and the
session is entirely unchanged: the dispatcher task is neither aborted nor
joined, and both the writer and the task handles are still stored. -/
theorem C10_disconnect_close_failure_leaves_all :
    ∀ (w : World) (wi : Nat) (e : TErr), w.client.writer = some wi →
      disconnectStep w (some e) = (w, .error (.TungsteniteError e)) := by
  intro w wi e hw
  simp [disconnectStep, hw]

/-- C10 witness: a close failure on a live session returns the transport
error with the world unchanged. -/
theorem C10_disconnect_close_failure_leaves_all_witness :
    disconnectStep (connectStep World.new none []).1 (some "broken pipe") =
      ((connectStep World.new none []).1, .error (.TungsteniteError "broken pipe")) :=
  C10_disconnect_close_failure_leaves_all (connectStep World.new none []).1 0
    "broken pipe" rfl

/-- UTF-8 bytes of a concatenation. -/
lemma utf8Bytes_append (a b : String) :
    utf8Bytes (a ++ b) = utf8Bytes a ++ utf8Bytes b := by
  simp [utf8Bytes]

/-- UTF-8 bytes of the empty string. -/
lemma utf8Bytes_empty : utf8Bytes "" = [] := rfl

/-- UTF-8 bytes of `[a, b, c, d].concat()`. -/
lemma utf8Bytes_join4 (a b c d : String) :
    utf8Bytes (String.join [a, b, c, d]) =
      utf8Bytes a ++ utf8Bytes b ++ utf8Bytes c ++ utf8Bytes d := by
  simp [String.join, utf8Bytes_append, utf8Bytes_empty]

/-- A live session whose next message id is 11, for the auth reference
vector. -/
def wAuthVec : World :=
  { client :=
      { CryptoClient.new with writer := some 0, reader_join := some 0, message_id := 11 },
    writers := [false], tasks := [.running (.ok ())], sent := [] }

/-- C6: the signature of the Auth request sent by `auth` is the
hex-encoded HMAC-SHA256, keyed with the secret bytes, of the byte
concatenation of "public/auth", the decimal string of the id, the
api_key, and the decimal string of the nonce; at the fixed inputs
(id 11, api_key "token", secret "secret", nonce 1587846358253) it equals
the reference vector
7aaec5022ec2774be06c9631c24afeb514c65000682d303dcd1195634b670ccd
byte-for-byte. -/
theorem C6_auth_signature_hmac :
    (∀ (w : World) (wi : Nat) (api_key api_secret : String) (env : Env),
      w.client.writer = some wi →
      w.writers.getD wi true = false →
      env.ser = none → env.send = none →
      (authStep w api_key api_secret env).1.sent = w.sent ++
        [.Auth w.client.message_id api_key
          (hexEncode (hmacSha256 (utf8Bytes api_secret)
            (utf8Bytes "public/auth" ++ utf8Bytes (toString w.client.message_id) ++
             utf8Bytes api_key ++ utf8Bytes (toString (nonce env.clock)))))
          (nonce env.clock)]) ∧
    (authStep wAuthVec "token" "secret"
        { clock := some 1587846358253, ser := none, send := none }).1.sent =
      [.Auth 11 "token"
        "7aaec5022ec2774be06c9631c24afeb514c65000682d303dcd1195634b670ccd"
        1587846358253] := by
  constructor
  · intro w wi api_key api_secret env hw hopen hser hsend
    have hsv : sendViaWriter w.writers wi env = .ok () := by
      unfold sendViaWriter; rw [hopen]; simp [hsend]
    simp [authStep, hw, hser, hmacNewFromSlice, hsv, buildAuth, utf8Bytes_join4]
  · decide

/-- C6 witness: the general signature law applied at the reference-vector
session and inputs. -/
theorem C6_auth_signature_hmac_witness :
    (authStep wAuthVec "token" "secret"
        { clock := some 1587846358253, ser := none, send := none }).1.sent =
      wAuthVec.sent ++
        [.Auth wAuthVec.client.message_id "token"
          (hexEncode (hmacSha256 (utf8Bytes "secret")
            (utf8Bytes "public/auth" ++
             utf8Bytes (toString wAuthVec.client.message_id) ++
             utf8Bytes "token" ++
             utf8Bytes (toString (nonce (some 1587846358253))))))
          (nonce (some 1587846358253))] :=
  C6_auth_signature_hmac.1 wAuthVec 0 "token" "secret"
    { clock := some 1587846358253, ser := none, send := none } rfl rfl rfl rfl

end CryptoCom
